import Mathlib

/-!
Verification of the schema-translation and batch-transfer engine implemented in
`examples/SmartRAG.Demo/DatabaseSetup/scripts/copy_adventureworks_data.py`.

Python strings are modelled as `List Char` (`Str`).  Pure helpers of the script
(type conversion, literal escaping, per-column serialization, row-text
reassembly, DDL building, metadata parsing) are translated directly; the
effectful transfer drivers are modelled as pure functions of an environment
that supplies the result of each external `execute` call, with the queries
issued against the target database recorded as an operation trace.
-/

namespace SmartRAG

/-- Python strings are modelled as lists of characters. -/
abbrev Str := List Char

/-- Shorthand turning a Lean string literal into the `Str` model. -/
def chars (s : String) : Str := s.toList

/-- The whitespace characters stripped by Python `str.strip()` (ASCII subset). -/
def isPySpace (c : Char) : Bool :=
  c == ' ' || c == '\t' || c == '\n' || c == '\r' || c == '\x0b' || c == '\x0c'

/-- Python `str.strip()`: drop leading and trailing whitespace. -/
def pyStrip (l : Str) : Str :=
  ((l.dropWhile isPySpace).reverse.dropWhile isPySpace).reverse

/-- Python `str.lower()` (ASCII letters; the script only compares ASCII). -/
def pyLower (l : Str) : Str := l.map Char.toLower

/-- Python `str.upper()` (ASCII letters). -/
def pyUpper (l : Str) : Str := l.map Char.toUpper

/-- Python `str.startswith(c)` for a single-character prefix. -/
def startsWithChar (c : Char) : Str → Bool
  | [] => false
  | d :: _ => d == c

/-- Python `str.split(sep)` for a one-character separator: keeps empty pieces,
returns one piece for the empty string. -/
def splitOnChar (sep : Char) : Str → List Str
  | [] => [[]]
  | c :: rest =>
    match splitOnChar sep rest with
    | [] => [[]]
    | f :: fs => if c = sep then [] :: f :: fs else (c :: f) :: fs

/-- Python `needle in hay` substring test. -/
def containsSub (needle : Str) : Str → Bool
  | [] => needle.isEmpty
  | c :: rest => needle.isPrefixOf (c :: rest) || containsSub needle rest

/-- Python `str.isdigit()` (ASCII digits; the script's inputs are ASCII). -/
def pyIsDigitStr (l : Str) : Bool := !l.isEmpty && l.all Char.isDigit

/-- Value of a string of decimal digits. -/
def digitsToNat (l : Str) : Nat :=
  l.foldl (fun a c => a * 10 + (c.toNat - '0'.toNat)) 0

/-- Python `int(s)` on an already-stripped string: an optional sign followed by
decimal digits succeeds, anything else raises (modelled as `none`).  (Python
also accepts underscore digit grouping and non-ASCII digits; the script's
metadata values never contain those.) -/
def pyIntParse (l : Str) : Option Int :=
  match l with
  | '-' :: rest => if pyIsDigitStr rest then some (-(digitsToNat rest : Int)) else none
  | '+' :: rest => if pyIsDigitStr rest then some (digitsToNat rest : Int) else none
  | _ => if pyIsDigitStr l then some (digitsToNat l : Int) else none

/-- Digits-only test that also accepts the empty string. -/
def digitsOnly (l : Str) : Bool := l.all Char.isDigit

/-- Optional sign dropped from the front of a numeric string. -/
def dropSign : Str → Str
  | '+' :: r => r
  | '-' :: r => r
  | l => l

/-- Mantissa shape accepted by Python `float()`: digits, or digits with one
decimal point and at least one digit overall. -/
def pyFloatMantissa (l : Str) : Bool :=
  match splitOnChar '.' l with
  | [a] => pyIsDigitStr a
  | [a, b] => digitsOnly a && digitsOnly b && (!a.isEmpty || !b.isEmpty)
  | _ => false

/-- Whether Python `float(s)` succeeds (decimal or scientific notation, or the
inf/nan words; underscore grouping not modelled). -/
def pyFloatOk (l : Str) : Bool :=
  let m := pyLower (dropSign (pyStrip l))
  if m = chars "inf" || m = chars "infinity" || m = chars "nan" then true
  else
    match splitOnChar 'e' m with
    | [mant] => pyFloatMantissa mant
    | [mant, ex] => pyFloatMantissa mant && pyIsDigitStr (dropSign ex)
    | _ => false

/-- Decimal rendering of a natural number, as Python `str` does. -/
def natToStr (n : Nat) : Str := (toString n).toList

/-- Decimal rendering of an integer, as Python `str` does. -/
def intToStr (i : Int) : Str := (toString i).toList

/-- Python `", ".join(xs)`. -/
def joinComma (xs : List Str) : Str := List.intercalate (chars ", ") xs

/-- One column of the introspected table metadata, as the dict built by
`get_table_definition_mssql` (all values are the raw metadata strings). -/
structure Column where
  name : Str
  data_type : Str
  is_nullable : Bool
  max_length : Option Str
  precision : Option Str
  scale : Option Str
  is_pk : Bool
  is_identity : Bool
  deriving DecidableEq, Inhabited

/-- Python truthiness of an optional string (`None` and `''` are falsy). -/
def truthy : Option Str → Bool
  | none => false
  | some s => !s.isEmpty

/-- Value of an optional string, the empty string when absent (only read under
a `truthy` guard, mirroring the script). -/
def optVal (o : Option Str) : Str := o.getD []

/-- The script's `TYPE_MAPPING` dict as an association list: source type to
(pg, mysql, sqlite) target types. -/
def TYPE_MAPPING_list : List (Str × Str × Str × Str) :=
  [(chars "int", chars "INTEGER", chars "INT", chars "INTEGER"),
   (chars "bigint", chars "BIGINT", chars "BIGINT", chars "INTEGER"),
   (chars "smallint", chars "SMALLINT", chars "SMALLINT", chars "INTEGER"),
   (chars "tinyint", chars "SMALLINT", chars "TINYINT", chars "INTEGER"),
   (chars "bit", chars "BOOLEAN", chars "BIT", chars "INTEGER"),
   (chars "decimal", chars "DECIMAL", chars "DECIMAL", chars "REAL"),
   (chars "numeric", chars "NUMERIC", chars "DECIMAL", chars "REAL"),
   (chars "money", chars "MONEY", chars "DECIMAL(19,4)", chars "REAL"),
   (chars "smallmoney", chars "MONEY", chars "DECIMAL(10,4)", chars "REAL"),
   (chars "float", chars "DOUBLE PRECISION", chars "DOUBLE", chars "REAL"),
   (chars "real", chars "REAL", chars "FLOAT", chars "REAL"),
   (chars "datetime", chars "TIMESTAMP", chars "DATETIME", chars "TEXT"),
   (chars "datetime2", chars "TIMESTAMP", chars "DATETIME(6)", chars "TEXT"),
   (chars "date", chars "DATE", chars "DATE", chars "TEXT"),
   (chars "time", chars "TIME", chars "TIME", chars "TEXT"),
   (chars "char", chars "CHAR", chars "CHAR", chars "TEXT"),
   (chars "varchar", chars "VARCHAR", chars "VARCHAR", chars "TEXT"),
   (chars "nvarchar", chars "VARCHAR", chars "VARCHAR", chars "TEXT"),
   (chars "nchar", chars "CHAR", chars "CHAR", chars "TEXT"),
   (chars "text", chars "TEXT", chars "TEXT", chars "TEXT"),
   (chars "ntext", chars "TEXT", chars "TEXT", chars "TEXT"),
   (chars "xml", chars "XML", chars "TEXT", chars "TEXT"),
   (chars "uniqueidentifier", chars "UUID", chars "CHAR(36)", chars "TEXT"),
   (chars "varbinary", chars "BYTEA", chars "VARBINARY", chars "BLOB"),
   (chars "image", chars "BYTEA", chars "LONGBLOB", chars "BLOB"),
   (chars "timestamp", chars "BYTEA", chars "BINARY(8)", chars "BLOB"),
   (chars "hierarchyid", chars "TEXT", chars "VARCHAR(892)", chars "TEXT")]

/-- `TYPE_MAPPING[t]`: the dict lookup; `none` for a key not in the dict. -/
def TYPE_MAPPING (t : Str) : Option (Str × Str × Str) :=
  (TYPE_MAPPING_list.find? (fun kv => kv.1 = t)).map (·.2)

/-- `convert_type_mssql_to_pg`: SQL Server type to PostgreSQL type. -/
def convert_type_mssql_to_pg (mssql_type : Str) (max_length precision scale : Option Str) : Str :=
  let base_type := pyLower mssql_type
  match TYPE_MAPPING base_type with
  | none => chars "TEXT"
  | some (pg_type, _, _) =>
    if base_type = chars "xml" then chars "TEXT"
    else if base_type ∈ [chars "varchar", chars "nvarchar", chars "char", chars "nchar"] then
      if truthy max_length ∧ max_length ≠ some (chars "-1") then
        pg_type ++ chars "(" ++ optVal max_length ++ chars ")"
      else chars "TEXT"
    else if base_type ∈ [chars "decimal", chars "numeric"] then
      if truthy precision ∧ truthy scale then
        pg_type ++ chars "(" ++ optVal precision ++ chars "," ++ optVal scale ++ chars ")"
      else if truthy precision then pg_type ++ chars "(" ++ optVal precision ++ chars ")"
      else pg_type
    else if base_type = chars "varbinary" then
      if truthy max_length ∧ max_length ≠ some (chars "-1") then
        chars "VARBINARY(" ++ optVal max_length ++ chars ")"
      else chars "BYTEA"
    else pg_type

/-- `convert_type_mssql_to_mysql`: SQL Server type to MySQL type. -/
def convert_type_mssql_to_mysql (mssql_type : Str) (max_length precision scale : Option Str) : Str :=
  let base_type := pyLower mssql_type
  match TYPE_MAPPING base_type with
  | none => chars "TEXT"
  | some (_, mysql_type, _) =>
    if base_type = chars "xml" then chars "TEXT"
    else if base_type = chars "hierarchyid" then
      if truthy max_length ∧ max_length ≠ some (chars "-1") then
        chars "VARCHAR(" ++ optVal max_length ++ chars ")"
      else chars "VARCHAR(892)"
    else if base_type ∈ [chars "varchar", chars "nvarchar", chars "char", chars "nchar"] then
      if truthy max_length ∧ max_length ≠ some (chars "-1") ∧ max_length ≠ some (chars "NULL") then
        if base_type = chars "nvarchar" ∨ base_type = chars "nchar" then
          match pyIntParse (optVal max_length) with
          | some max_len_int =>
            if max_len_int > 16383 ∨ max_len_int * 3 > 65535 then chars "TEXT"
            else chars "VARCHAR(" ++ intToStr (min (max_len_int * 4) 65535) ++ chars ")"
          | none => chars "TEXT"
        else
          match pyIntParse (optVal max_length) with
          | some max_len_int =>
            if max_len_int > 65535 then chars "TEXT"
            else mysql_type ++ chars "(" ++ optVal max_length ++ chars ")"
          | none => chars "TEXT"
      else chars "TEXT"
    else if base_type ∈ [chars "decimal", chars "numeric"] then
      if truthy precision ∧ truthy scale then
        mysql_type ++ chars "(" ++ optVal precision ++ chars "," ++ optVal scale ++ chars ")"
      else if truthy precision then mysql_type ++ chars "(" ++ optVal precision ++ chars ")"
      else mysql_type
    else if base_type = chars "varbinary" then
      if truthy max_length ∧ max_length ≠ some (chars "-1") then
        chars "VARBINARY(" ++ optVal max_length ++ chars ")"
      else chars "LONGBLOB"
    else mysql_type

/-- `convert_type_mssql_to_sqlite`: SQL Server type to SQLite type. -/
def convert_type_mssql_to_sqlite (mssql_type : Str) (_max_length _precision _scale : Option Str) : Str :=
  let base_type := pyLower mssql_type
  match TYPE_MAPPING base_type with
  | none => chars "TEXT"
  | some (_, _, sqlite_type) =>
    if base_type ∈ [chars "decimal", chars "numeric", chars "money", chars "smallmoney"] then chars "REAL"
    else if base_type ∈ [chars "varchar", chars "nvarchar", chars "char", chars "nchar",
        chars "text", chars "ntext", chars "xml"] then chars "TEXT"
    else if base_type ∈ [chars "varbinary", chars "image", chars "timestamp"] then chars "BLOB"
    else if base_type = chars "hierarchyid" then chars "TEXT"
    else if base_type = chars "uniqueidentifier" then chars "TEXT"
    else if base_type ∈ [chars "datetime", chars "datetime2", chars "date", chars "time"] then chars "TEXT"
    else if base_type ∈ [chars "int", chars "bigint", chars "smallint", chars "tinyint", chars "bit"] then chars "INTEGER"
    else if base_type ∈ [chars "float", chars "real"] then chars "REAL"
    else sqlite_type

/-- Python `str.replace(t, r)` for a one-character pattern `t`. -/
def replaceChar (t : Char) (r : Str) : Str → Str
  | [] => []
  | c :: rest => (if c = t then r else [c]) ++ replaceChar t r rest

/-- The PostgreSQL path's string escaping,
`val.replace("'", "''").replace('\x5c', '\x5c\x5c')`. -/
def escape_pg (v : Str) : Str :=
  replaceChar '\\' (chars "\\\\") (replaceChar '\'' (chars "''") v)

/-- The MySQL path's string escaping,
`val.replace("\x5c", "\x5c\x5c").replace("'", "''")`. -/
def escape_mysql (v : Str) : Str :=
  replaceChar '\'' (chars "''") (replaceChar '\\' (chars "\\\\") v)

/-- The SQLite path's string escaping: same doubling of backslashes then
quotes as the MySQL path. -/
def escape_sqlite (v : Str) : Str :=
  replaceChar '\'' (chars "''") (replaceChar '\\' (chars "\\\\") v)

/-- Single-pass form of the escaping shared by all three dialect paths. -/
def escapeBoth : Str → Str
  | [] => []
  | c :: rest =>
    (if c = '\\' then chars "\\\\" else if c = '\'' then chars "''" else [c]) ++ escapeBoth rest

/-- Modelled from the spec: MySQL's own string-literal semantics for the body
of a single-quoted literal — a backslash escapes the following character and a
doubled single quote denotes one quote (the `execute` collaborator that applies
these semantics is the external MySQL engine, outside the repository). -/
def mysql_literal_unescape : Str → Str
  | [] => []
  | c :: rest =>
    if c = '\\' then
      match rest with
      | [] => []
      | d :: rest2 => d :: mysql_literal_unescape rest2
    else if c = '\'' then
      match rest with
      | [] => [c]
      | d :: rest2 =>
        if d = '\'' then '\'' :: mysql_literal_unescape rest2
        else c :: mysql_literal_unescape (d :: rest2)
    else c :: mysql_literal_unescape rest

/-- Modelled from the spec: SQLite's own string-literal semantics — a doubled
single quote denotes one quote and a backslash has no special meaning (the
engine applying these semantics is the external SQLite library). -/
def sqlite_literal_unescape : Str → Str
  | [] => []
  | c :: rest =>
    if c = '\'' then
      match rest with
      | [] => [c]
      | d :: rest2 =>
        if d = '\'' then '\'' :: sqlite_literal_unescape rest2
        else c :: sqlite_literal_unescape (d :: rest2)
    else c :: sqlite_literal_unescape rest

/-- Modelled from the spec: PostgreSQL's own string-literal semantics under the
default standard-conforming strings — identical to SQLite's (doubled quote,
backslash not an escape). -/
def pg_literal_unescape : Str → Str := sqlite_literal_unescape

/-- The character/text/date source types quoted and escaped on the PostgreSQL
serialization path (line 540 of the script). -/
def pgStringTypes : List Str :=
  [chars "varchar", chars "nvarchar", chars "char", chars "nchar", chars "text",
   chars "ntext", chars "datetime", chars "datetime2", chars "date", chars "time",
   chars "uniqueidentifier"]

/-- Integer-family source types. -/
def intTypes : List Str :=
  [chars "int", chars "bigint", chars "smallint", chars "tinyint"]

/-- Exact/approximate numeric source types. -/
def numTypes : List Str :=
  [chars "decimal", chars "numeric", chars "money", chars "smallmoney", chars "float", chars "real"]

/-- Binary-family source types on the PostgreSQL path. -/
def binTypes : List Str := [chars "varbinary", chars "image", chars "timestamp"]

/-- A value wrapped in single quotes after PostgreSQL escaping. -/
def pgQuoted (v : Str) : Str := ['\''] ++ escape_pg v ++ ['\'']

/-- A value wrapped in single quotes after MySQL/SQLite escaping. -/
def myQuoted (v : Str) : Str := ['\''] ++ escape_mysql v ++ ['\'']

/-- Per-column literal rendering of the PostgreSQL path
(`copy_data_mssql_to_pg_alternative`, lines 530-567): the strip of the raw
field precedes the dispatch, as in the enclosing loop. -/
def serialize_value_pg (col : Column) (v0 : Str) : Str :=
  let val := if !v0.isEmpty then pyStrip v0 else []
  let dt := pyLower col.data_type
  if val = chars "NULL" ∨ val = [] then chars "NULL"
  else if dt = chars "xml" then pgQuoted val
  else if dt ∈ pgStringTypes then pgQuoted val
  else if dt = chars "bit" then
    if val = chars "1" ∨ pyLower val = chars "true" then chars "TRUE" else chars "FALSE"
  else if dt ∈ intTypes then
    if !val.isEmpty then (if (pyIntParse val).isSome then val else chars "NULL") else chars "NULL"
  else if dt ∈ numTypes then
    if !val.isEmpty then (if pyFloatOk val then val else chars "NULL") else chars "NULL"
  else if dt ∈ binTypes then pgQuoted val ++ chars "::BYTEA"
  else pgQuoted val

/-- The character/text source types that receive an empty-string literal when
NOT NULL on the MySQL and SQLite paths (lines 943 and 1271). -/
def charFamilyForEmpty : List Str :=
  [chars "varchar", chars "nvarchar", chars "char", chars "nchar", chars "text",
   chars "ntext", chars "uniqueidentifier", chars "hierarchyid"]

/-- Date/time source types. -/
def dateTypes : List Str :=
  [chars "datetime", chars "datetime2", chars "date", chars "time"]

/-- Plain character/text types quoted on the MySQL and SQLite paths
(lines 979 and 1295). -/
def myStringTypes : List Str :=
  [chars "varchar", chars "nvarchar", chars "char", chars "nchar", chars "text",
   chars "ntext", chars "uniqueidentifier"]

/-- The hex digits kept by the binary-value cleaner. -/
def hexDigits : Str := chars "0123456789ABCDEF"

/-- The script's hex cleanup: uppercase, strip, keep hex digits only. -/
def cleanHex (v : Str) : Str :=
  (pyStrip (pyUpper v)).filter (fun c => hexDigits.contains c)

/-- The MySQL binary rendering (lines 997-1017): `UNHEX('...')` or NULL. -/
def mysqlHexLiteral (val : Str) : Str :=
  if !val.isEmpty ∧ (chars "0x").isPrefixOf val then
    let hex_val_clean := cleanHex (val.drop 2)
    if !hex_val_clean.isEmpty then chars "UNHEX('" ++ hex_val_clean ++ chars "')" else chars "NULL"
  else if !val.isEmpty then
    let hex_val_clean := cleanHex val
    if !hex_val_clean.isEmpty then chars "UNHEX('" ++ hex_val_clean ++ chars "')" else chars "NULL"
  else chars "NULL"

/-- The SQLite binary rendering (lines 1312-1346): `X'...'` or NULL. -/
def sqliteHexLiteral (val : Str) : Str :=
  if !val.isEmpty ∧ (chars "0x").isPrefixOf val then
    let hex_val_clean := cleanHex (val.drop 2)
    if !hex_val_clean.isEmpty then chars "X'" ++ hex_val_clean ++ chars "'" else chars "NULL"
  else if !val.isEmpty then
    let hex_val_clean := cleanHex val
    if !hex_val_clean.isEmpty then chars "X'" ++ hex_val_clean ++ chars "'" else chars "NULL"
  else chars "NULL"

/-- Per-column literal rendering of the MySQL path
(`copy_data_mssql_to_mysql_batch`, lines 934-1039). -/
def serialize_value_mysql (col : Column) (v0 : Str) : Str :=
  let val := if !v0.isEmpty then pyStrip v0 else []
  let dt := pyLower col.data_type
  if val = chars "NULL" ∨ val = [] then
    if !col.is_nullable then
      if dt ∈ charFamilyForEmpty then chars "''"
      else if dt ∈ dateTypes then chars "NULL"
      else chars "NULL"
    else chars "NULL"
  else if dt = chars "xml" then myQuoted val
  else if dt = chars "hierarchyid" then myQuoted (pyStrip val)
  else if dt ∈ dateTypes then
    if !val.isEmpty ∧ val ≠ chars "NULL" ∧ !(pyStrip val).isEmpty then myQuoted val
    else chars "NULL"
  else if dt ∈ myStringTypes then myQuoted val
  else if dt = chars "bit" then
    if val = chars "1" ∨ pyLower val = chars "true" then chars "1" else chars "0"
  else if dt ∈ intTypes then
    if !val.isEmpty then (if (pyIntParse val).isSome then val else chars "NULL") else chars "NULL"
  else if dt ∈ numTypes then
    if !val.isEmpty then (if pyFloatOk val then val else chars "NULL") else chars "NULL"
  else if dt ∈ [chars "varbinary", chars "image"] then mysqlHexLiteral val
  else if dt = chars "timestamp" then mysqlHexLiteral val
  else myQuoted val

/-- Per-column literal rendering of the SQLite path
(`copy_data_mssql_to_sqlite_batch`, lines 1263-1349). -/
def serialize_value_sqlite (col : Column) (v0 : Str) : Str :=
  let val := if !v0.isEmpty then pyStrip v0 else []
  let dt := pyLower col.data_type
  if val = chars "NULL" ∨ val = [] then
    if !col.is_nullable then
      if dt ∈ charFamilyForEmpty then chars "''"
      else if dt ∈ dateTypes then chars "NULL"
      else chars "NULL"
    else chars "NULL"
  else if dt = chars "xml" then myQuoted val
  else if dt = chars "hierarchyid" then myQuoted (pyStrip val)
  else if dt ∈ dateTypes then
    if !val.isEmpty ∧ val ≠ chars "NULL" ∧ !(pyStrip val).isEmpty then myQuoted val
    else chars "NULL"
  else if dt ∈ myStringTypes then myQuoted val
  else if dt = chars "bit" then
    if val = chars "1" ∨ pyLower val = chars "true" then chars "1" else chars "0"
  else if dt ∈ intTypes then
    if !val.isEmpty then (if (pyIntParse val).isSome then val else chars "NULL") else chars "NULL"
  else if dt ∈ numTypes then
    if !val.isEmpty then (if pyFloatOk val then val else chars "NULL") else chars "NULL"
  else if dt ∈ [chars "varbinary", chars "image"] then sqliteHexLiteral val
  else if dt = chars "timestamp" then sqliteHexLiteral val
  else myQuoted val

/-! ## Row-text parsing and reassembly -/

/-- The MySQL/SQLite batch readers' filter on a stripped physical line
(lines 875-879 / 1217-1221): nonempty, not a separator or row-count footer,
no header text. -/
def lineKept (ls : Str) : Bool :=
  !ls.isEmpty && !startsWithChar '(' ls && !startsWithChar '-' ls &&
  !containsSub (chars "rows affected") (pyLower ls) &&
  !containsSub (chars "column") (pyLower ls)

/-- The multi-line reassembly loop of the MySQL/SQLite batch readers
(lines 871-893 / 1213-1232): a kept line with fewer than `e` tab characters
is a fragment and is accumulated (with a trailing space) until the tab count
is reached; `current` is the accumulator. -/
def assembleGo (e : Nat) : List Str → Str → List Str
  | [], current => if !current.isEmpty then [pyStrip current] else []
  | l :: rest, current =>
    let ls := pyStrip l
    if lineKept ls then
      if (ls.count '\t') < e then assembleGo e rest (current ++ ls ++ [' '])
      else if !current.isEmpty then (current ++ ls) :: assembleGo e rest []
      else ls :: assembleGo e rest []
    else assembleGo e rest current

/-- Reassembled logical lines of a page of delimited text (expected tab count
`e`, raw physical lines `lines`). -/
def assembleLines (e : Nat) (lines : List Str) : List Str := assembleGo e lines []

/-- Field cleanup applied to each split part (lines 914-921 / 1246-1251):
strip, and turn the `[EMPTY]` placeholder into the empty string. -/
def cleanPart (p : Str) : Str :=
  let ps := if !p.isEmpty then pyStrip p else []
  if ps = chars "[EMPTY]" then [] else ps

/-- Splitting one reassembled line into exactly `n` fields (lines 899-924 /
1237-1254): pad with empty fields or truncate to `n`, then clean each part. -/
def rowsFromLines (n : Nat) (lines : List Str) : List (List Str) :=
  lines.filterMap fun line =>
    if !line.isEmpty then
      let parts := splitOnChar '\t' line
      let parts :=
        if parts.length < n then parts ++ List.replicate (n - parts.length) []
        else if parts.length > n then parts.take n
        else parts
      let cleaned := parts.map cleanPart
      if cleaned.length = n then some cleaned else none
    else none

/-- The PostgreSQL batch reader's simpler parse (lines 513-520): filter and
strip lines, then keep a line only when it splits into at least `n` parts,
taking the first `n` stripped. -/
def pgParseRows (n : Nat) (text : Str) : List (List Str) :=
  let lines := (splitOnChar '\n' text).filterMap fun l =>
    let ls := pyStrip l
    if !ls.isEmpty && !startsWithChar '(' ls && !startsWithChar '-' ls then some ls else none
  lines.filterMap fun line =>
    if !line.isEmpty && !containsSub (chars "rows affected") (pyLower line) &&
        !containsSub (chars "column") (pyLower line) then
      let parts := splitOnChar '\t' line
      if parts.length ≥ n then some ((parts.take n).map pyStrip) else none
    else none

/-! ## Chunked INSERT emission and conflict policy -/

/-- One row of serialized values as a parenthesized tuple, PostgreSQL path
(lines 527-570). -/
def rowToValuesPg (cols : List Column) (row : List Str) : Str :=
  let values := (List.range cols.length).map fun i =>
    serialize_value_pg (cols.getD i default) (row.getD i [])
  chars "(" ++ joinComma values ++ chars ")"

/-- One row of serialized values as a parenthesized tuple, MySQL path
(lines 931-1042). -/
def rowToValuesMysql (cols : List Column) (row : List Str) : Str :=
  let values := (List.range cols.length).map fun i =>
    serialize_value_mysql (cols.getD i default) (row.getD i [])
  chars "(" ++ joinComma values ++ chars ")"

/-- One row of serialized values as a parenthesized tuple, SQLite path
(lines 1261-1352). -/
def rowToValuesSqlite (cols : List Column) (row : List Str) : Str :=
  let values := (List.range cols.length).map fun i =>
    serialize_value_sqlite (cols.getD i default) (row.getD i [])
  chars "(" ++ joinComma values ++ chars ")"

/-- `range(0, len, 200)` chunking of the batch values (insert chunk size 200). -/
def chunks200 : List α → List (List α)
  | [] => []
  | x :: xs => (x :: xs).take 200 :: chunks200 ((x :: xs).drop 200)
  termination_by l => l.length
  decreasing_by simp; omega

/-- The PostgreSQL error text recognized as a duplicate/conflict
(line 597). -/
def pgDupRecognized (r : Str) : Bool :=
  containsSub (chars "duplicate key") (pyLower r) || containsSub (chars "conflict") (pyLower r)

/-- The MySQL error text recognized as duplicate/key-related (line 1062). -/
def mysqlDupRecognized (r : Str) : Bool :=
  containsSub (chars "duplicate") (pyLower r) || containsSub (chars "key") (pyLower r)

/-- The SQLite error text recognized as duplicate-related (line 1370; note the
second test compares an uppercase needle against lowercased text, as the
script does). -/
def sqliteDupRecognized (r : Str) : Bool :=
  containsSub (chars "duplicate") (pyLower r) || containsSub (chars "UNIQUE constraint") (pyLower r)

/-- The inner insert loop over the 200-row chunks of one page (lines 581-604 /
1050-1067 / 1360-1375): `rs` supplies each chunk's `(resultText, statusCode)`.
On an unrecognized error the chunk's rows are not counted and the page offset
is advanced by `batchSize` (the script's `offset += batch_size; continue`);
otherwise — success or a recognized duplicate error — the whole chunk's row
count is added.  Returns the updated `(copied, offset)`. -/
def processChunks (recognized : Str → Bool) (batchSize : Nat) :
    List (List Str) → List (Str × Int) → Nat → Nat → Nat × Nat
  | [], _, copied, offset => (copied, offset)
  | c :: cs, rs, copied, offset =>
    let r := rs.headD ([], 0)
    if r.2 ≠ 0 ∧ recognized r.1 = false then
      processChunks recognized batchSize cs rs.tail copied (offset + batchSize)
    else
      processChunks recognized batchSize cs rs.tail (copied + c.length) offset

/-- The upsert-skip clause of the PostgreSQL insert (lines 586-589): present
exactly when the table has primary-key columns. -/
def pgConflictClause (cols : List Column) : Str :=
  let pk_cols_quoted := cols.filterMap fun c =>
    if c.is_pk then some (chars "\"" ++ c.name ++ chars "\"") else none
  if !pk_cols_quoted.isEmpty then
    chars " ON CONFLICT (" ++ joinComma pk_cols_quoted ++ chars ") DO NOTHING"
  else []

/-- The identity-override clause of the PostgreSQL insert (lines 577-578). -/
def pgOverrideClause (cols : List Column) : Str :=
  if cols.any (·.is_identity) then chars " OVERRIDING SYSTEM VALUE" else []

/-- The full PostgreSQL INSERT statement for one chunk (line 591). -/
def pgInsertQuery (target_schema target_table : Str) (col_names_quoted : List Str)
    (cols : List Column) (batch_insert_values : List Str) : Str :=
  chars "INSERT INTO \"" ++ target_schema ++ chars "\".\"" ++ target_table ++
  chars "\" (" ++ joinComma col_names_quoted ++ chars ")" ++ pgOverrideClause cols ++
  chars " VALUES " ++ joinComma batch_insert_values ++ pgConflictClause cols ++ chars ";"

/-! ## DDL builders -/

/-- Integer family usable as a SQLite AUTOINCREMENT key (line 333). -/
def sqliteIntFamily : List Str :=
  [chars "int", chars "bigint", chars "smallint", chars "tinyint"]

/-- Number of primary-key columns of the table (`num_pk_cols`). -/
def numPkCols (columns : List Column) : Nat := columns.countP (·.is_pk)

/-- The SQLite autoincrement suffix of one column definition (lines 332-335). -/
def sqliteAutoincrement (numPk : Nat) (col : Column) : Str :=
  if col.is_identity ∧ col.is_pk ∧ numPk = 1 ∧ pyLower col.data_type ∈ sqliteIntFamily then
    chars " PRIMARY KEY AUTOINCREMENT"
  else []

/-- One SQLite column definition (lines 318-337): when the autoincrement
suffix applies, the NOT NULL suffix is suppressed. -/
def sqliteColDef (numPk : Nat) (col : Column) : Str :=
  let sqlite_type := convert_type_mssql_to_sqlite col.data_type col.max_length col.precision col.scale
  let autoincrement := sqliteAutoincrement numPk col
  let nullable := if !autoincrement.isEmpty then []
                  else if col.is_nullable then [] else chars " NOT NULL"
  chars "`" ++ col.name ++ chars "` " ++ sqlite_type ++ autoincrement ++ nullable

/-- The SQLite trailing-PRIMARY-KEY column list (lines 339-341): a PK column
is excluded when it is the identity column of a single-column key. -/
def sqlitePkCols (columns : List Column) : List Str :=
  columns.filterMap fun col =>
    if col.is_pk ∧ ¬(col.is_identity ∧ numPkCols columns = 1) then
      some (chars "`" ++ col.name ++ chars "`")
    else none

/-- The full `CREATE TABLE` text built by `create_table_sqlite`
(lines 309-353). -/
def create_table_sqlite_sql (columns : List Column) (schema table : Str) : Str :=
  let table_name := schema ++ chars "_" ++ table
  let col_defs := columns.map (sqliteColDef (numPkCols columns))
  let pk_cols := sqlitePkCols columns
  let col_defs := col_defs ++ (if !pk_cols.isEmpty then
    [chars "PRIMARY KEY (" ++ joinComma pk_cols ++ chars ")"] else [])
  chars "CREATE TABLE `" ++ table_name ++ chars "` (" ++ joinComma col_defs ++ chars ");"

/-- The MySQL AUTO_INCREMENT suffix of one column definition (lines 653-659):
identity, primary key, and the table's only primary-key column. -/
def mysqlAutoIncrement (numPk : Nat) (col : Column) : Str :=
  if col.is_identity ∧ col.is_pk ∧ numPk = 1 then chars " AUTO_INCREMENT" else []

/-- One MySQL column definition (lines 639-661). -/
def mysqlColDef (numPk : Nat) (col : Column) : Str :=
  let mysql_type := convert_type_mssql_to_mysql col.data_type col.max_length col.precision col.scale
  let nullable := if col.is_nullable then [] else chars " NOT NULL"
  chars "`" ++ col.name ++ chars "` " ++ mysql_type ++ mysqlAutoIncrement numPk col ++ nullable

/-- One entry of the MySQL PRIMARY KEY column list (lines 664-696): long
character keys receive a prefix length to fit the InnoDB index budget. -/
def mysqlPkEntry (col : Column) : Str :=
  let dt := pyLower col.data_type
  if dt = chars "hierarchyid" then chars "`" ++ col.name ++ chars "`(191)"
  else if dt ∈ [chars "nvarchar", chars "varchar"] ∧ truthy col.max_length then
    match pyIntParse (optVal col.max_length) with
    | some max_len =>
      if dt = chars "nvarchar" ∧ max_len * 4 > 767 then chars "`" ++ col.name ++ chars "`(191)"
      else if max_len > 767 then chars "`" ++ col.name ++ chars "`(767)"
      else chars "`" ++ col.name ++ chars "`"
    | none => chars "`" ++ col.name ++ chars "`"
  else if dt ∈ [chars "nchar", chars "char"] ∧ truthy col.max_length then
    match pyIntParse (optVal col.max_length) with
    | some max_len =>
      if dt = chars "nchar" ∧ max_len * 4 > 767 then chars "`" ++ col.name ++ chars "`(191)"
      else if max_len > 767 then chars "`" ++ col.name ++ chars "`(767)"
      else chars "`" ++ col.name ++ chars "`"
    | none => chars "`" ++ col.name ++ chars "`"
  else chars "`" ++ col.name ++ chars "`"

/-- The MySQL trailing-PRIMARY-KEY column list: every primary-key column is
collected (line 664), including an AUTO_INCREMENT one. -/
def mysqlPkCols (columns : List Column) : List Str :=
  columns.filterMap fun col => if col.is_pk then some (mysqlPkEntry col) else none

/-- The full `CREATE TABLE` text built by `create_table_mysql`
(lines 629-707). -/
def create_table_mysql_sql (columns : List Column) (schema table database : Str) : Str :=
  let table_name := schema ++ chars "_" ++ table
  let col_defs := columns.map (mysqlColDef (numPkCols columns))
  let pk_cols := mysqlPkCols columns
  let col_defs := col_defs ++ (if !pk_cols.isEmpty then
    [chars "PRIMARY KEY (" ++ joinComma pk_cols ++ chars ")"] else [])
  chars "CREATE TABLE `" ++ database ++ chars "`.`" ++ table_name ++ chars "` (" ++
    joinComma col_defs ++ chars ");"

/-- The `hasSingleAutoincrementKey` property of the data model: exactly one
primary-key column, which is an identity column of the integer family. -/
def hasSingleAutoincrementKey (columns : List Column) : Bool :=
  numPkCols columns = 1 &&
  columns.all fun c => !c.is_pk || (c.is_identity && decide (pyLower c.data_type ∈ sqliteIntFamily))

/-! ## Schema introspection (`get_table_definition_mssql`) -/

/-- The name-set extraction loop applied to the PK / identity / computed
metadata query results (lines 93-98, 106-111, 147-152). -/
def keyColsFrom (text : Str) : List Str :=
  (splitOnChar '\n' text).filterMap fun line =>
    let l := pyStrip line
    if !l.isEmpty && !startsWithChar '(' l && !startsWithChar '-' l &&
        !containsSub (chars "column_name") (pyLower l) then
      let parts := splitOnChar ',' l
      match parts with
      | [] => none
      | p :: _ => some (pyStrip p)
    else none

/-- Parsing one line of the column-attribute query result into a `Column`
(lines 116-139): a cleanly parsed column whose name has length 1 or 0 is
dropped. -/
def columnFromLine (pk_columns identity_columns : List Str) (line : Str) : Option Column :=
  let l := pyStrip line
  if !l.isEmpty && !startsWithChar '(' l && !startsWithChar '-' l &&
      !containsSub (chars "column_name") (pyLower l) &&
      !containsSub (chars "rows") (pyLower l) then
    let parts := (splitOnChar ',' l).map pyStrip
    if parts.length ≥ 6 then
      let col_name := parts.getD 0 []
      let p3 := parts.getD 3 []
      let p4 := parts.getD 4 []
      let p5 := parts.getD 5 []
      if !col_name.isEmpty ∧ col_name.length > 1 then
        some
          { name := col_name
            data_type := pyLower (parts.getD 1 [])
            is_nullable := parts.getD 2 [] = chars "YES"
            max_length := if !p3.isEmpty ∧ p3 ≠ chars "NULL" then some p3 else none
            precision := if !p4.isEmpty ∧ p4 ≠ chars "NULL" then some p4 else none
            scale := if !p5.isEmpty ∧ p5 ≠ chars "NULL" then some p5 else none
            is_pk := pk_columns.contains col_name
            is_identity := identity_columns.contains col_name }
      else none
    else none
  else none

/-- `get_table_definition_mssql` modelled on the four query results it
receives from the source connection: result text and status code of the
column-attribute, primary-key, identity and computed-column queries. -/
def get_table_definition_mssql (result1 : Str) (code1 : Int) (result2 : Str) (code2 : Int)
    (result3 : Str) (code3 : Int) (result4 : Str) (code4 : Int) : List Column :=
  if code1 ≠ 0 then []
  else
    let pk_columns := if code2 = 0 then keyColsFrom result2 else []
    let identity_columns := if code3 = 0 then keyColsFrom result3 else []
    let columns := (splitOnChar '\n' result1).filterMap (columnFromLine pk_columns identity_columns)
    let computed_columns := if code4 = 0 then keyColsFrom result4 else []
    columns.filter fun col => !computed_columns.contains col.name

/-! ## Transfer drivers

The effectful drivers are modelled as pure functions.  Queries issued against
the *target* database are recorded as a trace of `TgtOp` operations; the
target's row count is threaded as state, with a successful `DELETE` taking it
to zero and a count query reading it (the `execute`-and-parse round trip of a
`SELECT COUNT(*)` against the target is modelled as reading that state).
Source-side query results (column metadata, source row count, page text) are
inputs. -/

/-- A query issued against the target database. -/
inductive TgtOp where
  | tableCheck
  | createTable
  | countCheck
  | delete
  | insertChunk (rows : Nat)
  deriving DecidableEq

/-- Where a transfer job ends before (or instead of) the batch-copy loop. -/
inductive Outcome where
  /-- A `return False, 0` site before copying. -/
  | failed
  /-- `SKIP (boş)`: the source table is empty (`return True, 0`). -/
  | skipEmpty
  /-- `SKIP (zaten kopyalanmış)`: target row count equals source row count
  (`return True, count`). -/
  | skipped (n : Nat)
  /-- The job falls through to the batch-copy function. -/
  | proceed
  deriving DecidableEq

/-- `copy_data_mssql_to_pg` up to its dispatch into the batch copier
(lines 408-460): step 0 deletes all target rows *before* the row-count
comparison, so the count check reads the post-delete target.  `columns` and
`totalRows` are the source-side results (all source and target calls
succeeding); `tgtRows` is the target table's initial row count.  Returns the
outcome, the target row count at that point, and the target-query trace. -/
def pgPrelude (columns : List Column) (totalRows tgtRows : Nat) :
    Outcome × Nat × List TgtOp :=
  let tgt0 := tgtRows
  let tgt1 := 0  -- step 0: DELETE FROM target (line 413) empties the table
  let _ := tgt0
  if columns.isEmpty then (.failed, tgt1, [.delete])
  else if totalRows = 0 then (.skipEmpty, tgt1, [.delete])
  else
    let pg_count := tgt1  -- step 2.5: SELECT COUNT(*) on the target (line 446)
    if pg_count > 0 ∧ pg_count = totalRows then (.skipped pg_count, tgt1, [.delete, .countCheck])
    else (.proceed, tgt1, [.delete, .countCheck])

/-- `copy_data_mssql_to_mysql` up to its dispatch into the batch copier
(lines 712-785): existence check, optional create, source count, then the
row-count comparison at line 774 *before* the delete at line 780. -/
def mysqlPrelude (tableExists : Bool) (columns : List Column) (totalRows tgtRows : Nat) :
    Outcome × Nat × List TgtOp :=
  if columns.isEmpty then (.failed, tgtRows, [.tableCheck])
  else
    -- step 1.5: create the table when absent (a fresh table holds 0 rows)
    let rows1 := if tableExists then tgtRows else 0
    let ops1 := if tableExists then [TgtOp.tableCheck] else [TgtOp.tableCheck, TgtOp.createTable]
    if totalRows = 0 then (.skipEmpty, rows1, ops1)
    else
      let mysql_count := rows1  -- step 2.5: SELECT COUNT(*) on the target (line 765)
      if mysql_count > 0 ∧ mysql_count = totalRows then
        (.skipped mysql_count, rows1, ops1 ++ [.countCheck])
      else
        (.proceed, 0, ops1 ++ [.countCheck, .delete])  -- step 2.6: clear, then copy

/-- The environment of a batch-copy loop: per-offset page fetch result from
the source, and per-offset list of the target's per-chunk insert results. -/
structure CopyEnv where
  fetch : Nat → Str × Int
  insertRes : Nat → List (Str × Int)

/-- The `while offset < total_rows` loop of `copy_data_mssql_to_mysql_batch`
(lines 806-1075), on fuel: fetch a page, reassemble and split its rows,
serialize them, emit 200-row insert chunks, and advance the offset by the page
size 1000.  A nonzero fetch status aborts the whole job with the rows copied
so far and no further target query.  Returns success, rows copied, and the
target-query trace from this point on. -/
def mysqlCopyLoop (env : CopyEnv) (cols : List Column) (totalRows : Nat) :
    Nat → Nat → Nat → Bool × Nat × List TgtOp
  | 0, _, copied => (true, copied, [])
  | fuel + 1, offset, copied =>
    if offset < totalRows then
      let fr := env.fetch offset
      if fr.2 ≠ 0 then (false, copied, [])
      else
        let lines := assembleLines (cols.length - 1) (splitOnChar '\n' fr.1)
        let rows := rowsFromLines cols.length lines
        if rows.isEmpty then (true, copied, [])
        else
          let batch_values := rows.map (rowToValuesMysql cols)
          if batch_values.isEmpty then mysqlCopyLoop env cols totalRows fuel (offset + 1000) copied
          else
            let chunks := chunks200 batch_values
            let co := processChunks mysqlDupRecognized 1000 chunks (env.insertRes offset) copied offset
            let ops := chunks.map fun c => TgtOp.insertChunk c.length
            let rec2 := mysqlCopyLoop env cols totalRows fuel (co.2 + 1000) co.1
            (rec2.1, rec2.2.1, ops ++ rec2.2.2)
    else (true, copied, [])

/-- `copy_data_mssql_to_mysql_batch` (lines 787-1075): clear the target, then
run the page loop with enough fuel for every page. -/
def copy_data_mssql_to_mysql_batch (env : CopyEnv) (cols : List Column) (totalRows : Nat) :
    Bool × Nat × List TgtOp :=
  let r := mysqlCopyLoop env cols totalRows (totalRows + 1) 0 0
  (r.1, r.2.1, TgtOp.delete :: r.2.2)

/-- The `while offset < total_rows` loop of `copy_data_mssql_to_pg_alternative`
(lines 480-610), on fuel: same structure as the MySQL loop with the
PostgreSQL row parse, serializer and duplicate-error recognition. -/
def pgCopyLoop (env : CopyEnv) (cols : List Column) (totalRows : Nat) :
    Nat → Nat → Nat → Bool × Nat × List TgtOp
  | 0, _, copied => (true, copied, [])
  | fuel + 1, offset, copied =>
    if offset < totalRows then
      let fr := env.fetch offset
      if fr.2 ≠ 0 then (false, copied, [])
      else
        let rows := pgParseRows cols.length fr.1
        if rows.isEmpty then (true, copied, [])
        else
          let batch_values := rows.map (rowToValuesPg cols)
          if batch_values.isEmpty then pgCopyLoop env cols totalRows fuel (offset + 1000) copied
          else
            let chunks := chunks200 batch_values
            let co := processChunks pgDupRecognized 1000 chunks (env.insertRes offset) copied offset
            let ops := chunks.map fun c => TgtOp.insertChunk c.length
            let rec2 := pgCopyLoop env cols totalRows fuel (co.2 + 1000) co.1
            (rec2.1, rec2.2.1, ops ++ rec2.2.2)
    else (true, copied, [])

/-- `copy_data_mssql_to_pg_alternative` (lines 462-612): clear the target
again, then run the page loop. -/
def copy_data_mssql_to_pg_alternative (env : CopyEnv) (cols : List Column) (totalRows : Nat) :
    Bool × Nat × List TgtOp :=
  let r := pgCopyLoop env cols totalRows (totalRows + 1) 0 0
  (r.1, r.2.1, TgtOp.delete :: r.2.2)

/-- Rows credited to `copied_count` by the chunk loop: the whole chunk when
its insert succeeded or failed with a recognized duplicate error, nothing
when it failed with an unrecognized error. -/
def countedRows (recognized : Str → Bool) : List (List Str) → List (Str × Int) → Nat
  | [], _ => 0
  | c :: cs, rs =>
    (if (rs.headD ([], 0)).2 = 0 ∨ recognized (rs.headD ([], 0)).1 = true then c.length else 0) +
    countedRows recognized cs rs.tail

/-! ## Helper lemmas: escaping -/

theorem replaceChar_append (t : Char) (r : Str) (a b : Str) :
    replaceChar t r (a ++ b) = replaceChar t r a ++ replaceChar t r b := by
  induction a with
  | nil => simp [replaceChar]
  | cons c cs ih => simp [replaceChar, ih, List.append_assoc]

theorem escape_pg_eq_escapeBoth (v : Str) : escape_pg v = escapeBoth v := by
  induction v with
  | nil => rfl
  | cons c cs ih =>
    have hsplit : escape_pg (c :: cs) =
        replaceChar '\\' (chars "\\\\") (if c = '\'' then chars "''" else [c]) ++ escape_pg cs := by
      simp only [escape_pg, replaceChar, replaceChar_append]
    rw [hsplit, ih]
    by_cases h1 : c = '\''
    · subst h1; rfl
    · by_cases h2 : c = '\\'
      · subst h2; rfl
      · show replaceChar '\\' (chars "\\\\") (if c = '\'' then chars "''" else [c]) ++ escapeBoth cs
            = escapeBoth (c :: cs)
        rw [if_neg h1]
        have hrc : replaceChar '\\' (chars "\\\\") [c] = [c] := by simp [replaceChar, h2]
        rw [hrc]
        show [c] ++ escapeBoth cs =
          (if c = '\\' then chars "\\\\" else if c = '\'' then chars "''" else [c]) ++ escapeBoth cs
        rw [if_neg h2, if_neg h1]

theorem escape_mysql_eq_escapeBoth (v : Str) : escape_mysql v = escapeBoth v := by
  induction v with
  | nil => rfl
  | cons c cs ih =>
    have hsplit : escape_mysql (c :: cs) =
        replaceChar '\'' (chars "''") (if c = '\\' then chars "\\\\" else [c]) ++ escape_mysql cs := by
      simp only [escape_mysql, replaceChar, replaceChar_append]
    rw [hsplit, ih]
    by_cases h1 : c = '\\'
    · subst h1; rfl
    · by_cases h2 : c = '\''
      · subst h2; rfl
      · show replaceChar '\'' (chars "''") (if c = '\\' then chars "\\\\" else [c]) ++ escapeBoth cs
            = escapeBoth (c :: cs)
        rw [if_neg h1]
        have hrc : replaceChar '\'' (chars "''") [c] = [c] := by simp [replaceChar, h2]
        rw [hrc]
        show [c] ++ escapeBoth cs =
          (if c = '\\' then chars "\\\\" else if c = '\'' then chars "''" else [c]) ++ escapeBoth cs
        rw [if_neg h1, if_neg h2]

theorem escape_sqlite_eq_escapeBoth (v : Str) : escape_sqlite v = escapeBoth v :=
  escape_mysql_eq_escapeBoth v

theorem sqlite_unescape_cons_ne (c : Char) (l : Str) (h : c ≠ '\'') :
    sqlite_literal_unescape (c :: l) = c :: sqlite_literal_unescape l := by
  rw [sqlite_literal_unescape.eq_def]
  simp [h]

theorem sqlite_unescape_cons_qq (l : Str) :
    sqlite_literal_unescape ('\'' :: '\'' :: l) = '\'' :: sqlite_literal_unescape l := by
  rw [sqlite_literal_unescape.eq_def]
  simp

theorem mysql_unescape_cons_bs (d : Char) (l : Str) :
    mysql_literal_unescape ('\\' :: d :: l) = d :: mysql_literal_unescape l := by
  rw [mysql_literal_unescape.eq_def]
  simp

theorem mysql_unescape_cons_qq (l : Str) :
    mysql_literal_unescape ('\'' :: '\'' :: l) = '\'' :: mysql_literal_unescape l := by
  rw [mysql_literal_unescape.eq_def]
  simp

theorem mysql_unescape_cons_ne (c : Char) (l : Str) (h1 : c ≠ '\\') (h2 : c ≠ '\'') :
    mysql_literal_unescape (c :: l) = c :: mysql_literal_unescape l := by
  rw [mysql_literal_unescape.eq_def]
  simp [h1, h2]

theorem escapeBoth_cons_ne (c : Char) (cs : Str) (h1 : c ≠ '\\') (h2 : c ≠ '\'') :
    escapeBoth (c :: cs) = c :: escapeBoth cs := by
  show (if c = '\\' then chars "\\\\" else if c = '\'' then chars "''" else [c]) ++
    escapeBoth cs = c :: escapeBoth cs
  rw [if_neg h1, if_neg h2]; rfl

theorem mysql_unescape_escapeBoth (v : Str) :
    mysql_literal_unescape (escapeBoth v) = v := by
  induction v with
  | nil => rfl
  | cons c cs ih =>
    by_cases h1 : c = '\\'
    · subst h1
      rw [show escapeBoth ('\\' :: cs) = '\\' :: '\\' :: escapeBoth cs from rfl]
      rw [mysql_unescape_cons_bs, ih]
    · by_cases h2 : c = '\''
      · subst h2
        rw [show escapeBoth ('\'' :: cs) = '\'' :: '\'' :: escapeBoth cs from rfl]
        rw [mysql_unescape_cons_qq, ih]
      · rw [escapeBoth_cons_ne c cs h1 h2, mysql_unescape_cons_ne c _ h1 h2, ih]

theorem sqlite_unescape_escapeBoth (v : Str) :
    sqlite_literal_unescape (escapeBoth v) = replaceChar '\\' (chars "\\\\") v := by
  induction v with
  | nil => rfl
  | cons c cs ih =>
    by_cases h1 : c = '\\'
    · subst h1
      rw [show escapeBoth ('\\' :: cs) = '\\' :: '\\' :: escapeBoth cs from rfl]
      rw [sqlite_unescape_cons_ne _ _ (by decide), sqlite_unescape_cons_ne _ _ (by decide), ih]
      rfl
    · by_cases h2 : c = '\''
      · subst h2
        rw [show escapeBoth ('\'' :: cs) = '\'' :: '\'' :: escapeBoth cs from rfl]
        rw [sqlite_unescape_cons_qq, ih]
        show '\'' :: replaceChar '\\' (chars "\\\\") cs =
          (if ('\'' : Char) = '\\' then chars "\\\\" else ['\'']) ++ replaceChar '\\' (chars "\\\\") cs
        rw [if_neg (by decide : ¬(('\'' : Char) = '\\'))]; rfl
      · rw [escapeBoth_cons_ne c cs h1 h2, sqlite_unescape_cons_ne c _ h2, ih]
        show c :: replaceChar '\\' (chars "\\\\") cs =
          (if c = '\\' then chars "\\\\" else [c]) ++ replaceChar '\\' (chars "\\\\") cs
        rw [if_neg h1]; rfl

/-- C4: the claim as stated fails — for the value made of one backslash and
one quote (so containing both characters), the SQLite and PostgreSQL
renderings do not round-trip under those dialects' own string-literal
semantics: the doubled backslash survives parsing. -/
theorem C4_roundtrip_counterexample :
    ('\\' ∈ chars "\\'" ∧ '\'' ∈ chars "\\'") ∧
    sqlite_literal_unescape (escape_sqlite (chars "\\'")) ≠ chars "\\'" ∧
    pg_literal_unescape (escape_pg (chars "\\'")) ≠ chars "\\'" := by
  decide

/-- C4 (amended): the round-trip holds for every string under the MySQL-like
dialect's literal semantics (backslash is an escape character there); under
SQLite's and standard-conforming PostgreSQL's semantics, parsing the rendered
literal back yields the original with every backslash doubled, so the
round-trip holds exactly for values without a backslash. -/
theorem C4_roundtrip_amended (v : Str) :
    mysql_literal_unescape (escape_mysql v) = v ∧
    sqlite_literal_unescape (escape_sqlite v) = replaceChar '\\' (chars "\\\\") v ∧
    pg_literal_unescape (escape_pg v) = replaceChar '\\' (chars "\\\\") v := by
  refine ⟨?_, ?_, ?_⟩
  · rw [escape_mysql_eq_escapeBoth, mysql_unescape_escapeBoth]
  · rw [escape_sqlite_eq_escapeBoth, sqlite_unescape_escapeBoth]
  · rw [escape_pg_eq_escapeBoth]
    exact sqlite_unescape_escapeBoth v

/-- C2: the claim as stated fails on the PostgreSQL path — an empty value for
a NOT NULL nvarchar column renders as NULL there, never as the empty-string
literal. -/
theorem C2_empty_policy_counterexample :
    serialize_value_pg
      { name := chars "Name", data_type := chars "nvarchar", is_nullable := false,
        max_length := some (chars "50"), precision := none, scale := none,
        is_pk := false, is_identity := false } [] = chars "NULL" ∧
    chars "NULL" ≠ chars "''" := by decide

/-- C2 (amended): the empty/'NULL' policy — NULL literal unless the column is
NOT NULL and of the character/text family, in which case '' — holds on the
MySQL and SQLite serialization paths; the PostgreSQL path renders NULL
unconditionally for empty or literal-'NULL' values. -/
theorem C2_empty_policy_amended (col : Column) (v : Str) (h : v = [] ∨ v = chars "NULL") :
    (serialize_value_mysql col v =
      if col.is_nullable = false ∧ pyLower col.data_type ∈ charFamilyForEmpty
      then chars "''" else chars "NULL") ∧
    (serialize_value_sqlite col v =
      if col.is_nullable = false ∧ pyLower col.data_type ∈ charFamilyForEmpty
      then chars "''" else chars "NULL") ∧
    serialize_value_pg col v = chars "NULL" := by
  by_cases hn : col.is_nullable <;>
    by_cases hm : pyLower col.data_type ∈ charFamilyForEmpty <;>
      rcases h with rfl | rfl <;>
        simp [serialize_value_mysql, serialize_value_sqlite, serialize_value_pg, hn, hm,
          pyStrip, isPySpace, chars]

/-- Witness for C2 (amended) at a NOT NULL nvarchar column and the empty
value. -/
theorem C2_empty_policy_witness :
    (serialize_value_mysql
      { name := chars "Name", data_type := chars "nvarchar", is_nullable := false,
        max_length := some (chars "50"), precision := none, scale := none,
        is_pk := false, is_identity := false } [] =
      if (false : Bool) = false ∧ pyLower (chars "nvarchar") ∈ charFamilyForEmpty
      then chars "''" else chars "NULL") ∧
    (serialize_value_sqlite
      { name := chars "Name", data_type := chars "nvarchar", is_nullable := false,
        max_length := some (chars "50"), precision := none, scale := none,
        is_pk := false, is_identity := false } [] =
      if (false : Bool) = false ∧ pyLower (chars "nvarchar") ∈ charFamilyForEmpty
      then chars "''" else chars "NULL") ∧
    serialize_value_pg
      { name := chars "Name", data_type := chars "nvarchar", is_nullable := false,
        max_length := some (chars "50"), precision := none, scale := none,
        is_pk := false, is_identity := false } [] = chars "NULL" :=
  C2_empty_policy_amended
    { name := chars "Name", data_type := chars "nvarchar", is_nullable := false,
      max_length := some (chars "50"), precision := none, scale := none,
      is_pk := false, is_identity := false } [] (Or.inl rfl)

/-- C1: the claim as stated fails on the PostgreSQL path — with the target
already holding exactly the source's 5 rows, the transfer deletes the target
rows first (the `.delete` at the head of the trace precedes the
`.countCheck`), the count comparison then reads 0, and the outcome is a full
re-copy, not Skipped. -/
theorem C1_skip_counterexample :
    pgPrelude [⟨chars "ID", chars "int", false, none, none, none, true, true⟩] 5 5 =
      (Outcome.proceed, 0, [TgtOp.delete, TgtOp.countCheck]) ∧
    Outcome.proceed ≠ Outcome.skipped 5 := by decide

/-- C1 (amended): on the MySQL path a target already holding exactly
`total_rows` rows is detected by the count check and the job returns Skipped
with the existing count, the only target queries being the existence check and
the count check (no write); on the PostgreSQL path the target is cleared
before the count comparison, so the job always proceeds to a full re-copy. -/
theorem C1_skip_amended (cols : List Column) (n m : Nat)
    (h1 : cols ≠ []) (h2 : 0 < n) (h3 : m = n) :
    mysqlPrelude true cols n m =
      (Outcome.skipped n, n, [TgtOp.tableCheck, TgtOp.countCheck]) ∧
    pgPrelude cols n m = (Outcome.proceed, 0, [TgtOp.delete, TgtOp.countCheck]) := by
  subst h3
  have hn0 : m ≠ 0 := by omega
  constructor
  · simp [mysqlPrelude, h1, hn0, h2]
  · simp [pgPrelude, h1, hn0]

/-- Witness for C1 (amended) at a one-column table with 5 rows on both
sides. -/
theorem C1_skip_witness :
    mysqlPrelude true [⟨chars "ID", chars "int", false, none, none, none, true, true⟩] 5 5 =
      (Outcome.skipped 5, 5, [TgtOp.tableCheck, TgtOp.countCheck]) ∧
    pgPrelude [⟨chars "ID", chars "int", false, none, none, none, true, true⟩] 5 5 =
      (Outcome.proceed, 0, [TgtOp.delete, TgtOp.countCheck]) :=
  C1_skip_amended [⟨chars "ID", chars "int", false, none, none, none, true, true⟩] 5 5
    (by decide) (by decide) rfl

theorem processChunks_copied (recognized : Str → Bool) (bs : Nat) :
    ∀ (chunks : List (List Str)) (rs : List (Str × Int)) (copied offset : Nat),
      (processChunks recognized bs chunks rs copied offset).1 =
        copied + countedRows recognized chunks rs := by
  intro chunks
  induction chunks with
  | nil => intro rs copied offset; simp [processChunks, countedRows]
  | cons c cs ih =>
    intro rs copied offset
    rw [processChunks, countedRows]
    by_cases h : (rs.headD ([], 0)).2 ≠ 0 ∧ recognized (rs.headD ([], 0)).1 = false
    · rw [if_pos h, ih]
      have hnc : ¬((rs.headD ([], 0)).2 = 0 ∨ recognized (rs.headD ([], 0)).1 = true) := by
        rintro (h0 | hr)
        · exact h.1 h0
        · rw [h.2] at hr
          exact absurd hr (by decide)
      rw [if_neg hnc]
      omega
    · rw [if_neg h, ih]
      have hc : (rs.headD ([], 0)).2 = 0 ∨ recognized (rs.headD ([], 0)).1 = true := by
        rcases eq_or_ne (rs.headD ([], 0)).2 0 with h0 | h0
        · exact Or.inl h0
        · rcases Bool.eq_false_or_eq_true (recognized (rs.headD ([], 0)).1) with hr | hr
          · exact Or.inr hr
          · exact absurd ⟨h0, hr⟩ h
      rw [if_pos hc]
      omega

/-- C3: the claim as stated fails — a chunk of 2 rows whose insert fails with
a recognized duplicate-key error still has both rows added to the copied
count (the claim requires a failed chunk's rows not to be counted). -/
theorem C3_conflict_counterexample :
    processChunks mysqlDupRecognized 1000 [[chars "(1, 'x')", chars "(2, 'y')"]]
      [(chars "ERROR 1062 (23000): Duplicate entry", 1)] 0 0 = (2, 0) ∧
    (2 : Nat) ≠ 0 := by decide

/-- C3 (amended): the PostgreSQL insert carries the ON CONFLICT ... DO
NOTHING clause whenever the table has a primary key; on the dialects lacking
the clause a chunk failure is non-fatal and every chunk is processed, the
returned count crediting the full chunk for a success *or* a recognized
duplicate/key error and nothing for an unrecognized error (which also bumps
the page offset). -/
theorem C3_conflict_amended :
    (∀ (chunks : List (List Str)) (rs : List (Str × Int)) (copied offset : Nat),
      (processChunks mysqlDupRecognized 1000 chunks rs copied offset).1 =
        copied + countedRows mysqlDupRecognized chunks rs ∧
      (processChunks pgDupRecognized 1000 chunks rs copied offset).1 =
        copied + countedRows pgDupRecognized chunks rs ∧
      (processChunks sqliteDupRecognized 1000 chunks rs copied offset).1 =
        copied + countedRows sqliteDupRecognized chunks rs) ∧
    (∀ (schema table : Str) (q : List Str) (cols : List Column) (vals : List Str),
      (∃ c ∈ cols, c.is_pk = true) →
      chars " ON CONFLICT (" <:+: pgInsertQuery schema table q cols vals) := by
  constructor
  · intro chunks rs copied offset
    exact ⟨processChunks_copied _ _ chunks rs copied offset,
      processChunks_copied _ _ chunks rs copied offset,
      processChunks_copied _ _ chunks rs copied offset⟩
  · rintro schema table q cols vals ⟨c, hc, hpk⟩
    have hmem : (chars "\"" ++ c.name ++ chars "\"") ∈ cols.filterMap (fun c =>
        if c.is_pk then some (chars "\"" ++ c.name ++ chars "\"") else none) := by
      rw [List.mem_filterMap]
      exact ⟨c, hc, by rw [if_pos hpk]⟩
    have hne : cols.filterMap (fun c =>
        if c.is_pk then some (chars "\"" ++ c.name ++ chars "\"") else none) ≠ [] :=
      List.ne_nil_of_mem hmem
    refine ⟨chars "INSERT INTO \"" ++ schema ++ chars "\".\"" ++ table ++
        chars "\" (" ++ joinComma q ++ chars ")" ++ pgOverrideClause cols ++
        chars " VALUES " ++ joinComma vals,
      joinComma (cols.filterMap (fun c =>
        if c.is_pk then some (chars "\"" ++ c.name ++ chars "\"") else none)) ++
        chars ") DO NOTHING" ++ chars ";", ?_⟩
    rw [pgInsertQuery, pgConflictClause]
    have hcond : (!(cols.filterMap (fun c =>
        if c.is_pk then some (chars "\"" ++ c.name ++ chars "\"") else none)).isEmpty) = true := by
      simp only [Bool.not_eq_true', List.isEmpty_eq_false]
      exact hne
    rw [if_pos hcond]
    simp [List.append_assoc]

/-- Witness for C3 (amended): a concrete chunk list and a concrete insert
statement with a primary key. -/
theorem C3_conflict_witness :
    (processChunks mysqlDupRecognized 1000 [[chars "(1)", chars "(2)"]] [(chars "", 0)] 3 0).1 =
      3 + countedRows mysqlDupRecognized [[chars "(1)", chars "(2)"]] [(chars "", 0)] ∧
    chars " ON CONFLICT (" <:+: pgInsertQuery (chars "s") (chars "t") [chars "\"ID\""]
      [⟨chars "ID", chars "int", false, none, none, none, true, true⟩] [chars "(1)"] :=
  ⟨(C3_conflict_amended.1 [[chars "(1)", chars "(2)"]] [(chars "", 0)] 3 0).1,
    C3_conflict_amended.2 (chars "s") (chars "t") [chars "\"ID\""]
      [⟨chars "ID", chars "int", false, none, none, none, true, true⟩] [chars "(1)"]
      ⟨⟨chars "ID", chars "int", false, none, none, none, true, true⟩, by decide, rfl⟩⟩

/-! ## Helper lemmas: stripping and reassembly -/

theorem dropWhile_eq_self_of_pyStrip (l : Str) (h : pyStrip l = l) :
    l.dropWhile isPySpace = l := by
  have hsub : List.Sublist (l.dropWhile isPySpace) l := List.dropWhile_sublist _
  have hlen1 : (l.dropWhile isPySpace).length ≤ l.length := hsub.length_le
  have hlen2 : (pyStrip l).length ≤ (l.dropWhile isPySpace).length := by
    unfold pyStrip
    rw [List.length_reverse]
    calc ((l.dropWhile isPySpace).reverse.dropWhile isPySpace).length
        ≤ (l.dropWhile isPySpace).reverse.length :=
          (List.dropWhile_sublist _).length_le
      _ = (l.dropWhile isPySpace).length := List.length_reverse _
  rw [h] at hlen2
  exact hsub.eq_of_length (le_antisymm hlen1 hlen2)

theorem reverse_dropWhile_eq_self_of_pyStrip (l : Str) (h : pyStrip l = l) :
    l.reverse.dropWhile isPySpace = l.reverse := by
  have hd := dropWhile_eq_self_of_pyStrip l h
  have hx : pyStrip l = (l.reverse.dropWhile isPySpace).reverse := by
    unfold pyStrip
    rw [hd]
  rw [h] at hx
  have hy := congrArg List.reverse hx
  rw [List.reverse_reverse] at hy
  exact hy.symm

theorem head_not_space_of_dropWhile (c : Char) (t : Str)
    (h : (c :: t).dropWhile isPySpace = c :: t) : isPySpace c = false := by
  by_contra hc
  have hc' : isPySpace c = true := by
    rcases Bool.eq_false_or_eq_true (isPySpace c) with h1 | h1
    · exact h1
    · exact absurd h1 hc
  rw [List.dropWhile_cons_of_pos hc'] at h
  have hlen := congrArg List.length h
  have hle : (t.dropWhile isPySpace).length ≤ t.length :=
    (List.dropWhile_sublist _).length_le
  simp at hlen
  omega

theorem dropWhile_append_of_head (l x : Str) (hne : l ≠ [])
    (h : l.dropWhile isPySpace = l) : (l ++ x).dropWhile isPySpace = l ++ x := by
  rcases l with _ | ⟨c, t⟩
  · exact absurd rfl hne
  · have hc := head_not_space_of_dropWhile c t h
    rw [List.cons_append, List.dropWhile_cons_of_neg (by simp [hc])]

theorem strip_join (l1 l2 : Str) (h1 : pyStrip l1 = l1) (h2 : pyStrip l2 = l2)
    (n1 : l1 ≠ []) (n2 : l2 ≠ []) :
    pyStrip (l1 ++ ' ' :: (l2 ++ [' '])) = l1 ++ ' ' :: l2 := by
  unfold pyStrip
  rw [dropWhile_append_of_head l1 (' ' :: (l2 ++ [' '])) n1
    (dropWhile_eq_self_of_pyStrip l1 h1)]
  have hrev : (l1 ++ ' ' :: (l2 ++ [' '])).reverse = ' ' :: (l2.reverse ++ (' ' :: l1.reverse)) := by
    simp
  rw [hrev]
  rw [List.dropWhile_cons_of_pos (by decide : isPySpace ' ' = true)]
  rw [dropWhile_append_of_head l2.reverse (' ' :: l1.reverse) (by simpa using n2)
    (reverse_dropWhile_eq_self_of_pyStrip l2 h2)]
  simp


theorem splitOnChar_ne_nil (sep : Char) (l : Str) : splitOnChar sep l ≠ [] := by
  induction l with
  | nil => simp [splitOnChar]
  | cons c rest ih =>
    rw [splitOnChar]
    rcases hs : splitOnChar sep rest with _ | ⟨f, fs⟩
    · exact absurd hs ih
    · by_cases hc : c = sep <;> simp [hc]

theorem splitOnChar_length (sep : Char) (l : Str) :
    (splitOnChar sep l).length = l.count sep + 1 := by
  induction l with
  | nil => simp [splitOnChar]
  | cons c rest ih =>
    rw [splitOnChar]
    rcases hs : splitOnChar sep rest with _ | ⟨f, fs⟩
    · exact absurd hs (splitOnChar_ne_nil sep rest)
    · rw [hs] at ih
      dsimp only
      by_cases hc : c = sep
      · subst hc
        simp only [if_pos rfl]
        simp [List.count_cons] at ih ⊢
        omega
      · rw [if_neg hc]
        simp [List.count_cons, hc] at ih ⊢
        omega

/-- C6 (amended): a kept physical line with fewer than the expected number of
tab delimiters is treated as a fragment and joined with the following line,
but with a single space inserted at the fragment boundary; the reassembled
line splits into exactly `len(columns)` fields. -/
theorem C6_reassembly_amended (e : Nat) (l1 l2 : Str)
    (hs1 : pyStrip l1 = l1) (hs2 : pyStrip l2 = l2)
    (hk1 : lineKept l1 = true) (hk2 : lineKept l2 = true)
    (hc1 : l1.count '\t' < e) (hsum : l1.count '\t' + l2.count '\t' = e) :
    assembleLines e [l1, l2] = [l1 ++ ' ' :: l2] ∧
    (splitOnChar '\t' (l1 ++ ' ' :: l2)).length = e + 1 := by
  have hne1 : l1 ≠ [] := by
    rcases l1 with _ | _
    · simp [lineKept] at hk1
    · simp
  have hne2 : l2 ≠ [] := by
    rcases l2 with _ | _
    · simp [lineKept] at hk2
    · simp
  constructor
  · show assembleGo e [l1, l2] [] = [l1 ++ ' ' :: l2]
    rw [assembleGo]
    simp only [hs1, hk1, if_true]
    rw [if_pos hc1]
    rw [assembleGo]
    simp only [hs2, hk2, if_true]
    by_cases hcase : l2.count '\t' < e
    · rw [if_pos hcase]
      rw [assembleGo]
      have hcur : ¬(([] ++ l1 ++ [' ']) ++ l2 ++ [' ']).isEmpty = true := by
        simp [hne1]
      rw [if_pos (by simp)]
      have hassoc : ([] ++ l1 ++ [' ']) ++ l2 ++ [' '] = l1 ++ ' ' :: (l2 ++ [' ']) := by
        simp
      rw [hassoc, strip_join l1 l2 hs1 hs2 hne1 hne2]
    · rw [if_neg hcase]
      have hcur : ¬([] ++ l1 ++ [' ']).isEmpty = true := by
        simp
      rw [if_pos (by simp)]
      rw [assembleGo]
      simp
  · have hcnt : (l1 ++ ' ' :: l2).count '\t' = e := by
      rw [List.count_append, List.count_cons]
      simp
      omega
    rw [splitOnChar_length, hcnt]


/-- C6: the claim as stated fails — the engine joins the two fragments of a
hard-wrapped row with an inserted space, so the reassembled fields are not
the plain un-wrapped concatenation: with 2 columns and physical lines "ab"
and "cd<TAB>ef", the first field becomes "ab cd", not "abcd". -/
theorem C6_reassembly_counterexample :
    assembleLines 1 [chars "ab", chars "cd\tef"] = [chars "ab cd\tef"] ∧
    rowsFromLines 2 (assembleLines 1 [chars "ab", chars "cd\tef"]) =
      [[chars "ab cd", chars "ef"]] ∧
    chars "ab cd" ≠ chars "ab" ++ chars "cd" := by decide

/-- Witness for C6 (amended) at the two-line page "ab" / "cd<TAB>ef" with one
expected delimiter. -/
theorem C6_reassembly_witness :
    assembleLines 1 [chars "ab", chars "cd\tef"] = [chars "ab" ++ ' ' :: chars "cd\tef"] ∧
    (splitOnChar '\t' (chars "ab" ++ ' ' :: chars "cd\tef")).length = 1 + 1 :=
  C6_reassembly_amended 1 (chars "ab") (chars "cd\tef") (by decide) (by decide)
    (by decide) (by decide) (by decide) (by decide)

/-- C9: when the page fetch at the current offset returns a nonzero status,
both batch-copy loops abort the whole job immediately, returning failure with
exactly the rows copied so far and issuing no further target query — in
particular no delete or cleanup of the rows loaded by earlier pages. -/
theorem C9_extraction_failure_aborts (env : CopyEnv) (cols : List Column)
    (totalRows fuel offset copied : Nat)
    (h1 : offset < totalRows) (h2 : (env.fetch offset).2 ≠ 0) :
    mysqlCopyLoop env cols totalRows (fuel + 1) offset copied = (false, copied, []) ∧
    pgCopyLoop env cols totalRows (fuel + 1) offset copied = (false, copied, []) := by
  constructor
  · rw [mysqlCopyLoop]
    rw [if_pos h1]
    simp only [if_pos h2]
  · rw [pgCopyLoop]
    rw [if_pos h1]
    simp only [if_pos h2]

/-- Witness for C9 at a concrete failing environment, with 7 rows already
copied. -/
theorem C9_extraction_failure_witness :
    mysqlCopyLoop ⟨fun _ => (chars "Sqlcmd: error", 1), fun _ => []⟩ [] 1 (0 + 1) 0 7 =
      (false, 7, []) ∧
    pgCopyLoop ⟨fun _ => (chars "Sqlcmd: error", 1), fun _ => []⟩ [] 1 (0 + 1) 0 7 =
      (false, 7, []) :=
  C9_extraction_failure_aborts ⟨fun _ => (chars "Sqlcmd: error", 1), fun _ => []⟩ [] 1 0 0 7
    (by decide) (by decide)

/-- C10: every column returned by the describe operation has a name of length
at least 2; a metadata row that parses cleanly but whose column name is a
single character is silently dropped. -/
theorem C10_one_char_column_dropped :
    (∀ (r1 : Str) (c1 : Int) (r2 : Str) (c2 : Int) (r3 : Str) (c3 : Int) (r4 : Str) (c4 : Int)
      (col : Column), col ∈ get_table_definition_mssql r1 c1 r2 c2 r3 c3 r4 c4 →
        2 ≤ col.name.length) ∧
    get_table_definition_mssql (chars "x,int,YES,10,NULL,NULL") 0 [] 0 [] 0 [] 0 = [] := by
  constructor
  · intro r1 c1 r2 c2 r3 c3 r4 c4 col hmem
    unfold get_table_definition_mssql at hmem
    by_cases hc1 : c1 ≠ 0
    · rw [if_pos hc1] at hmem
      simp at hmem
    · rw [if_neg hc1] at hmem
      have hmem2 := (List.mem_filter.mp hmem).1
      obtain ⟨line, _, hline⟩ := List.mem_filterMap.mp hmem2
      unfold columnFromLine at hline
      dsimp only at hline
      split_ifs at hline with hA hB hC hD hE hF hG hH <;>
        first
          | exact Option.noConfusion hline
          | (have hlen := hC.2
             rw [← Option.some.inj hline]
             dsimp only
             omega)
  · decide

/-- Witness for C10 at a clean two-character column name. -/
theorem C10_one_char_column_witness :
    2 ≤ (Column.name
      { name := chars "ID", data_type := chars "int", is_nullable := false,
        max_length := some (chars "10"), precision := some (chars "10"),
        scale := some (chars "0"), is_pk := false, is_identity := false }).length :=
  C10_one_char_column_dropped.1 (chars "ID,int,NO,10,10,0") 0 [] 0 [] 0 [] 0
    { name := chars "ID", data_type := chars "int", is_nullable := false,
      max_length := some (chars "10"), precision := some (chars "10"),
      scale := some (chars "0"), is_pk := false, is_identity := false }
    (by decide)

/-- C5: the claim as stated fails for the MySQL DDL builder — for a table
whose only primary-key column is an integer identity column
(`hasSingleAutoincrementKey`), the MySQL `CREATE TABLE` still carries a
separate trailing `PRIMARY KEY (...)` clause, while the SQLite builder
suppresses it as claimed. -/
theorem C5_pk_folding_counterexample :
    hasSingleAutoincrementKey [⟨chars "ID", chars "int", false, none, none, none, true, true⟩] = true ∧
    containsSub (chars ", PRIMARY KEY (`ID`)")
      (create_table_mysql_sql [⟨chars "ID", chars "int", false, none, none, none, true, true⟩]
        (chars "Production") (chars "Product") (chars "db")) = true ∧
    containsSub (chars "PRIMARY KEY (")
      (create_table_sqlite_sql [⟨chars "ID", chars "int", false, none, none, none, true, true⟩]
        (chars "Person") (chars "Address")) = false := by decide

/-- C5 (amended): for a `hasSingleAutoincrementKey` table the SQLite builder
folds the key into the column (` PRIMARY KEY AUTOINCREMENT`) and emits no
trailing PRIMARY KEY column list, while the MySQL builder puts only
` AUTO_INCREMENT` in the column definition and always emits the trailing
PRIMARY KEY clause for any table with primary-key columns; for every other
table with at least one primary-key column (given the data-model invariant
that identity columns are integer-family), both builders emit the trailing
clause. -/
theorem C5_pk_folding_amended (cols : List Column) :
    (hasSingleAutoincrementKey cols = true →
      sqlitePkCols cols = [] ∧
      (∀ c ∈ cols, c.is_pk = true →
        sqliteAutoincrement (numPkCols cols) c = chars " PRIMARY KEY AUTOINCREMENT" ∧
        mysqlAutoIncrement (numPkCols cols) c = chars " AUTO_INCREMENT") ∧
      mysqlPkCols cols ≠ []) ∧
    ((hasSingleAutoincrementKey cols = false ∧ (∃ c ∈ cols, c.is_pk = true) ∧
      (∀ c ∈ cols, c.is_identity = true → pyLower c.data_type ∈ sqliteIntFamily)) →
      sqlitePkCols cols ≠ [] ∧ mysqlPkCols cols ≠ []) := by
  constructor
  · intro h
    rw [hasSingleAutoincrementKey] at h
    simp only [Bool.and_eq_true, List.all_eq_true, decide_eq_true_eq] at h
    obtain ⟨hcount, hall⟩ := h
    have hall' : ∀ c ∈ cols, c.is_pk = true →
        c.is_identity = true ∧ pyLower c.data_type ∈ sqliteIntFamily := by
      intro c hc hp
      have := hall c hc
      rw [hp] at this
      simpa using this
    refine ⟨?_, ?_, ?_⟩
    · rw [sqlitePkCols, List.filterMap_eq_nil_iff]
      intro c hc
      by_cases hp : c.is_pk = true
      · rw [if_neg]
        rintro ⟨_, hcon⟩
        exact hcon ⟨(hall' c hc hp).1, hcount⟩
      · rw [if_neg]
        rintro ⟨hcon, _⟩
        exact hp hcon
    · intro c hc hp
      obtain ⟨hid, hfam⟩ := hall' c hc hp
      constructor
      · rw [sqliteAutoincrement, if_pos ⟨hid, hp, hcount, hfam⟩]
      · rw [mysqlAutoIncrement, if_pos ⟨hid, hp, hcount⟩]
    · have hpos : 0 < cols.countP (·.is_pk) := by
        rw [show cols.countP (·.is_pk) = numPkCols cols from rfl, hcount]
        omega
      obtain ⟨c, hc, hp⟩ := List.countP_pos_iff.mp hpos
      exact List.ne_nil_of_mem (List.mem_filterMap.mpr ⟨c, hc, by rw [if_pos (by simpa using hp)]⟩)
  · rintro ⟨hfalse, ⟨c, hc, hp⟩, hinv⟩
    constructor
    · by_cases hcount : numPkCols cols = 1
      · have hex : ∃ d ∈ cols, d.is_pk = true ∧
            ¬(d.is_identity = true ∧ pyLower d.data_type ∈ sqliteIntFamily) := by
          by_contra hno
          push_neg at hno
          have htrue : hasSingleAutoincrementKey cols = true := by
            rw [hasSingleAutoincrementKey]
            simp only [Bool.and_eq_true, List.all_eq_true, decide_eq_true_eq]
            refine ⟨hcount, ?_⟩
            intro d hd
            by_cases hdp : d.is_pk = true
            · obtain ⟨h1, h2⟩ := hno d hd hdp
              simp [h1, h2]
            · simp [Bool.eq_false_iff.mpr hdp]
          rw [htrue] at hfalse
          exact absurd hfalse (by decide)
        obtain ⟨d, hd, hdp, hdbad⟩ := hex
        have hdnotid : ¬ d.is_identity = true := fun hid => hdbad ⟨hid, hinv d hd hid⟩
        exact List.ne_nil_of_mem (List.mem_filterMap.mpr
          ⟨d, hd, by rw [if_pos ⟨hdp, fun hcon => hdnotid hcon.1⟩]⟩)
      · exact List.ne_nil_of_mem (List.mem_filterMap.mpr
          ⟨c, hc, by rw [if_pos ⟨hp, fun hcon => hcount hcon.2⟩]⟩)
    · exact List.ne_nil_of_mem (List.mem_filterMap.mpr ⟨c, hc, by rw [if_pos hp]⟩)


/-- Witness for C5 (amended) at the single-integer-identity-key table. -/
theorem C5_pk_folding_witness :
    sqlitePkCols [⟨chars "ID", chars "int", false, none, none, none, true, true⟩] = [] ∧
    mysqlPkCols [⟨chars "ID", chars "int", false, none, none, none, true, true⟩] ≠ [] :=
  ⟨((C5_pk_folding_amended
      [⟨chars "ID", chars "int", false, none, none, none, true, true⟩]).1 (by decide)).1,
   ((C5_pk_folding_amended
      [⟨chars "ID", chars "int", false, none, none, none, true, true⟩]).1 (by decide)).2.2⟩

theorem TYPE_MAPPING_components (t : Str) (x : Str × Str × Str)
    (h : TYPE_MAPPING t = some x) : x.1 ≠ [] ∧ x.2.1 ≠ [] ∧ x.2.2 ≠ [] := by
  unfold TYPE_MAPPING at h
  rcases hf : TYPE_MAPPING_list.find? (fun kv => kv.1 = t) with _ | kv
  · rw [hf] at h
    injection h
  · rw [hf] at h
    injection h with h2
    subst h2
    have hm := List.mem_of_find?_eq_some hf
    have hall : ∀ kv ∈ TYPE_MAPPING_list, kv.2.1 ≠ [] ∧ kv.2.2.1 ≠ [] ∧ kv.2.2.2 ≠ [] := by
      decide
    exact hall kv hm

theorem convert_type_mssql_to_pg_ne (t : Str) (ml p s : Option Str) :
    convert_type_mssql_to_pg t ml p s ≠ [] := by
  unfold convert_type_mssql_to_pg
  dsimp only
  rcases h : TYPE_MAPPING (pyLower t) with _ | ⟨pg, my, sq⟩
  · simp [chars]
  · obtain ⟨h1, h2a, h2b⟩ := TYPE_MAPPING_components _ _ h
    dsimp only
    split_ifs <;> simp_all [chars, List.append_eq_nil]

theorem convert_type_mssql_to_mysql_ne (t : Str) (ml p s : Option Str) :
    convert_type_mssql_to_mysql t ml p s ≠ [] := by
  unfold convert_type_mssql_to_mysql
  dsimp only
  rcases h : TYPE_MAPPING (pyLower t) with _ | ⟨pg, my, sq⟩
  · simp [chars]
  · obtain ⟨h1, h2a, h2b⟩ := TYPE_MAPPING_components _ _ h
    dsimp only
    rcases hp : pyIntParse (optVal ml) with _ | n
    · dsimp only
      split_ifs <;> simp_all [chars, List.append_eq_nil]
    · dsimp only
      split_ifs <;> simp_all [chars, List.append_eq_nil]

theorem convert_type_mssql_to_sqlite_ne (t : Str) (ml p s : Option Str) :
    convert_type_mssql_to_sqlite t ml p s ≠ [] := by
  unfold convert_type_mssql_to_sqlite
  dsimp only
  rcases h : TYPE_MAPPING (pyLower t) with _ | ⟨pg, my, sq⟩
  · simp [chars]
  · obtain ⟨h1, h2a, h2b⟩ := TYPE_MAPPING_components _ _ h
    dsimp only
    split_ifs <;> simp_all [chars]

/-- C7: each of the three type-conversion functions is total and
deterministic by construction; a source type not in the catalog resolves to
the generic unbounded text type TEXT on every dialect, and the result is
always a nonempty target type string. -/
theorem C7_type_resolution_total (t : Str) (ml p s : Option Str) :
    (TYPE_MAPPING (pyLower t) = none →
      convert_type_mssql_to_pg t ml p s = chars "TEXT" ∧
      convert_type_mssql_to_mysql t ml p s = chars "TEXT" ∧
      convert_type_mssql_to_sqlite t ml p s = chars "TEXT") ∧
    convert_type_mssql_to_pg t ml p s ≠ [] ∧
    convert_type_mssql_to_mysql t ml p s ≠ [] ∧
    convert_type_mssql_to_sqlite t ml p s ≠ [] := by
  refine ⟨fun h => ⟨?_, ?_, ?_⟩, convert_type_mssql_to_pg_ne t ml p s,
    convert_type_mssql_to_mysql_ne t ml p s, convert_type_mssql_to_sqlite_ne t ml p s⟩
  · unfold convert_type_mssql_to_pg
    dsimp only
    rw [h]
  · unfold convert_type_mssql_to_mysql
    dsimp only
    rw [h]
  · unfold convert_type_mssql_to_sqlite
    dsimp only
    rw [h]


/-- Witness for C7 at the unknown source type `geography`. -/
theorem C7_type_resolution_witness :
    (convert_type_mssql_to_pg (chars "geography") none none none = chars "TEXT" ∧
     convert_type_mssql_to_mysql (chars "geography") none none none = chars "TEXT" ∧
     convert_type_mssql_to_sqlite (chars "geography") none none none = chars "TEXT") ∧
    convert_type_mssql_to_pg (chars "geography") none none none ≠ [] :=
  ⟨(C7_type_resolution_total (chars "geography") none none none).1 (by decide),
   (C7_type_resolution_total (chars "geography") none none none).2.1⟩

theorem convert_mysql_wide (dt : Str) (p s : Option Str) (ml : Str) (n : Int)
    (h : pyLower dt = chars "nvarchar" ∨ pyLower dt = chars "nchar")
    (hp : pyIntParse ml = some n) (h0 : ml ≠ []) (h1 : ml ≠ chars "-1")
    (h2 : ml ≠ chars "NULL") :
    convert_type_mssql_to_mysql dt (some ml) p s =
      if 16383 < n ∨ 65535 < n * 3 then chars "TEXT"
      else chars "VARCHAR(" ++ intToStr (min (n * 4) 65535) ++ chars ")" := by
  have hcond : truthy (some ml) = true ∧ some ml ≠ some (chars "-1") ∧
      some ml ≠ some (chars "NULL") :=
    ⟨by simp [truthy, h0], by simpa using h1, by simpa using h2⟩
  have hov : optVal (some ml) = ml := rfl
  rcases h with h | h
  · unfold convert_type_mssql_to_mysql
    dsimp only
    rw [h, hov, hp]
    rw [show TYPE_MAPPING (chars "nvarchar") = some (chars "VARCHAR", chars "VARCHAR", chars "TEXT") from rfl]
    dsimp only
    rw [if_neg (by decide : ¬(chars "nvarchar" = chars "xml"))]
    rw [if_neg (by decide : ¬(chars "nvarchar" = chars "hierarchyid"))]
    rw [if_pos (by decide : chars "nvarchar" ∈
      [chars "varchar", chars "nvarchar", chars "char", chars "nchar"])]
    rw [if_pos hcond]
    rw [if_pos (Or.inl rfl :
      chars "nvarchar" = chars "nvarchar" ∨ chars "nvarchar" = chars "nchar")]
  · unfold convert_type_mssql_to_mysql
    dsimp only
    rw [h, hov, hp]
    rw [show TYPE_MAPPING (chars "nchar") = some (chars "CHAR", chars "CHAR", chars "TEXT") from rfl]
    dsimp only
    rw [if_neg (by decide : ¬(chars "nchar" = chars "xml"))]
    rw [if_neg (by decide : ¬(chars "nchar" = chars "hierarchyid"))]
    rw [if_pos (by decide : chars "nchar" ∈
      [chars "varchar", chars "nvarchar", chars "char", chars "nchar"])]
    rw [if_pos hcond]
    rw [if_pos (Or.inr rfl :
      chars "nchar" = chars "nvarchar" ∨ chars "nchar" = chars "nchar")]

theorem convert_mysql_narrow (dt : Str) (p s : Option Str) (ml : Str) (n : Int)
    (h : pyLower dt = chars "varchar" ∨ pyLower dt = chars "char")
    (hp : pyIntParse ml = some n) (h0 : ml ≠ []) (h1 : ml ≠ chars "-1")
    (h2 : ml ≠ chars "NULL") :
    convert_type_mssql_to_mysql dt (some ml) p s =
      if 65535 < n then chars "TEXT"
      else (if pyLower dt = chars "varchar" then chars "VARCHAR" else chars "CHAR") ++
        chars "(" ++ ml ++ chars ")" := by
  have hcond : truthy (some ml) = true ∧ some ml ≠ some (chars "-1") ∧
      some ml ≠ some (chars "NULL") :=
    ⟨by simp [truthy, h0], by simpa using h1, by simpa using h2⟩
  have hov : optVal (some ml) = ml := rfl
  rcases h with h | h
  · unfold convert_type_mssql_to_mysql
    dsimp only
    rw [h, hov, hp]
    rw [show TYPE_MAPPING (chars "varchar") = some (chars "VARCHAR", chars "VARCHAR", chars "TEXT") from rfl]
    dsimp only
    rw [if_neg (by decide : ¬(chars "varchar" = chars "xml"))]
    rw [if_neg (by decide : ¬(chars "varchar" = chars "hierarchyid"))]
    rw [if_pos (by decide : chars "varchar" ∈
      [chars "varchar", chars "nvarchar", chars "char", chars "nchar"])]
    rw [if_pos hcond]
    rw [if_neg (by decide :
      ¬(chars "varchar" = chars "nvarchar" ∨ chars "varchar" = chars "nchar"))]
    rw [if_pos (rfl : chars "varchar" = chars "varchar")]
  · unfold convert_type_mssql_to_mysql
    dsimp only
    rw [h, hov, hp]
    rw [show TYPE_MAPPING (chars "char") = some (chars "CHAR", chars "CHAR", chars "TEXT") from rfl]
    dsimp only
    rw [if_neg (by decide : ¬(chars "char" = chars "xml"))]
    rw [if_neg (by decide : ¬(chars "char" = chars "hierarchyid"))]
    rw [if_pos (by decide : chars "char" ∈
      [chars "varchar", chars "nvarchar", chars "char", chars "nchar"])]
    rw [if_pos hcond]
    rw [if_neg (by decide :
      ¬(chars "char" = chars "nvarchar" ∨ chars "char" = chars "nchar"))]
    rw [if_neg (by decide : ¬(chars "char" = chars "varchar"))]

theorem convert_mysql_char_absent (dt : Str) (p s : Option Str)
    (h : pyLower dt ∈ [chars "char", chars "varchar", chars "nchar", chars "nvarchar"]) :
    convert_type_mssql_to_mysql dt none p s = chars "TEXT" ∧
    convert_type_mssql_to_mysql dt (some []) p s = chars "TEXT" ∧
    convert_type_mssql_to_mysql dt (some (chars "-1")) p s = chars "TEXT" := by
  simp only [List.mem_cons] at h
  rcases h with h | h | h | h | h
  · exact ⟨by unfold convert_type_mssql_to_mysql; dsimp only; rw [h]; rfl,
      by unfold convert_type_mssql_to_mysql; dsimp only; rw [h]; rfl,
      by unfold convert_type_mssql_to_mysql; dsimp only; rw [h]; rfl⟩
  · exact ⟨by unfold convert_type_mssql_to_mysql; dsimp only; rw [h]; rfl,
      by unfold convert_type_mssql_to_mysql; dsimp only; rw [h]; rfl,
      by unfold convert_type_mssql_to_mysql; dsimp only; rw [h]; rfl⟩
  · exact ⟨by unfold convert_type_mssql_to_mysql; dsimp only; rw [h]; rfl,
      by unfold convert_type_mssql_to_mysql; dsimp only; rw [h]; rfl,
      by unfold convert_type_mssql_to_mysql; dsimp only; rw [h]; rfl⟩
  · exact ⟨by unfold convert_type_mssql_to_mysql; dsimp only; rw [h]; rfl,
      by unfold convert_type_mssql_to_mysql; dsimp only; rw [h]; rfl,
      by unfold convert_type_mssql_to_mysql; dsimp only; rw [h]; rfl⟩
  · simp at h


/-- C8: character-type resolution on the MySQL path — an absent or
sentinel-'-1' maxLength yields TEXT; a numeric length yields the
length-qualified type, with the wide variants' length multiplied by the
widening factor 4, escaping to TEXT exactly when the widened length exceeds
the 65535-byte maximum field width (for nchar/nvarchar) or the declared
length itself exceeds it (for char/varchar). -/
theorem C8_mysql_char_length (dt : Str) (p s : Option Str) :
    (pyLower dt ∈ [chars "char", chars "varchar", chars "nchar", chars "nvarchar"] →
      convert_type_mssql_to_mysql dt none p s = chars "TEXT" ∧
      convert_type_mssql_to_mysql dt (some []) p s = chars "TEXT" ∧
      convert_type_mssql_to_mysql dt (some (chars "-1")) p s = chars "TEXT") ∧
    (∀ (ml : Str) (n : Int), pyIntParse ml = some n → ml ≠ [] → ml ≠ chars "-1" →
      ml ≠ chars "NULL" →
      ((pyLower dt = chars "nvarchar" ∨ pyLower dt = chars "nchar") →
        (n * 4 > 65535 → convert_type_mssql_to_mysql dt (some ml) p s = chars "TEXT") ∧
        (n * 4 ≤ 65535 → convert_type_mssql_to_mysql dt (some ml) p s =
          chars "VARCHAR(" ++ intToStr (n * 4) ++ chars ")")) ∧
      ((pyLower dt = chars "varchar" ∨ pyLower dt = chars "char") →
        (n > 65535 → convert_type_mssql_to_mysql dt (some ml) p s = chars "TEXT") ∧
        (n ≤ 65535 → convert_type_mssql_to_mysql dt (some ml) p s =
          (if pyLower dt = chars "varchar" then chars "VARCHAR" else chars "CHAR") ++
            chars "(" ++ ml ++ chars ")"))) := by
  refine ⟨convert_mysql_char_absent dt p s, ?_⟩
  intro ml n hp h0 h1 h2
  constructor
  · intro hw
    have key := convert_mysql_wide dt p s ml n hw hp h0 h1 h2
    constructor
    · intro hgt
      rw [key, if_pos (show 16383 < n ∨ 65535 < n * 3 by omega)]
    · intro hle
      rw [key, if_neg (show ¬(16383 < n ∨ 65535 < n * 3) by omega)]
      rw [min_eq_left (show n * 4 ≤ (65535 : Int) by omega)]
  · intro hn
    have key := convert_mysql_narrow dt p s ml n hn hp h0 h1 h2
    constructor
    · intro hgt
      rw [key, if_pos (show (65535 : Int) < n by omega)]
    · intro hle
      rw [key, if_neg (show ¬((65535 : Int) < n) by omega)]

/-- Witness for C8 at nvarchar(50), which widens to VARCHAR(200). -/
theorem C8_mysql_char_length_witness :
    convert_type_mssql_to_mysql (chars "nvarchar") (some (chars "50")) none none =
      chars "VARCHAR(" ++ intToStr (50 * 4) ++ chars ")" :=
  (((C8_mysql_char_length (chars "nvarchar") none none).2 (chars "50") 50
      (by decide) (by decide) (by decide) (by decide)).1 (Or.inl rfl)).2 (by decide)

end SmartRAG
